import Mathlib

/-
Verification of the live audit pipeline of PolControl (src/main.py, class
AuditMonitor).  The per-line parsing logic of AuditMonitor._monitor_loop
(src/main.py lines 64-122) is embedded as pure Lean functions over lists of
characters; the regular expressions used by the code are modelled by direct
leftmost-search functions with the same semantics on the ASCII inputs the
monitor consumes.  The lifecycle state machine (start/stop, lines 52-62) and
the per-line exception boundary (lines 81-119) are modelled explicitly.
-/

namespace PolControl

/-! ## Character classes (ASCII models of the Python classes used in main.py) -/

/-- ASCII whitespace, the class matched by the regex token for whitespace and
stripped by Python's strip/split on the ASCII log lines the monitor reads. -/
def isSpaceChar (c : Char) : Bool :=
  c == ' ' || c == '\t' || c == '\n' || c == '\r' || c == Char.ofNat 11 || c == Char.ofNat 12

/-- The character class of the action-identifier group in
src/main.py line 91: letters, digits, dot and hyphen. -/
def isIdChar (c : Char) : Bool :=
  c.isAlpha || c.isDigit || c == '.' || c == '-'

/-- The word-character class (letters, digits, underscore) used by the
user-extraction regex in src/main.py line 96. -/
def isWordChar (c : Char) : Bool :=
  c.isAlphanum || c == '_'

/-- The single-quote character, written numerically. -/
def squote : Char := Char.ofNat 39

/-! ## Python string primitives used by the monitor loop -/

/-- Python str.lower restricted to ASCII (log lines are ASCII). -/
def pyLower (s : List Char) : List Char := s.map Char.toLower

/-- Python substring test: `needle in hay`. -/
def hasSubstr (needle : List Char) : List Char → Bool
  | [] => needle.isEmpty
  | c :: rest => needle.isPrefixOf (c :: rest) || hasSubstr needle rest

/-- Python str.strip() on ASCII input: drop whitespace at both ends
(src/main.py line 82). -/
def pyStrip (s : List Char) : List Char :=
  ((s.dropWhile isSpaceChar).reverse.dropWhile isSpaceChar).reverse

/-- Helper for pySplit: acc is the current token, reversed. -/
def pySplitAux : List Char → List Char → List (List Char)
  | [], acc => if acc.isEmpty then [] else [acc.reverse]
  | c :: rest, acc =>
    if isSpaceChar c then
      if acc.isEmpty then pySplitAux rest [] else acc.reverse :: pySplitAux rest []
    else pySplitAux rest (c :: acc)

/-- Python str.split() with no separator: whitespace-delimited tokens,
leading/trailing/repeated whitespace ignored (src/main.py line 83). -/
def pySplit (s : List Char) : List (List Char) := pySplitAux s []

/-- Python " ".join(tokens) (src/main.py line 83). -/
def joinSpace : List (List Char) → List Char
  | [] => []
  | [t] => t
  | t :: ts => t ++ ' ' :: joinSpace ts

/-- Python int() on a nonempty digit string. -/
def digitsToNat (s : List Char) : Nat :=
  s.foldl (fun acc c => acc * 10 + (c.toNat - 48)) 0

/-- The timestamp of src/main.py line 83: first three whitespace-delimited
tokens of the stripped line, joined by single spaces. -/
def timestampOf (fullLine : List Char) : List Char :=
  joinSpace ((pySplit fullLine).take 3)

/-! ## Models of the regular-expression searches

Each Python `re.search` is modelled by a leftmost scan: `reSearch m s` tries
the anchored matcher `m` at every suffix of `s` from the left and returns the
first captured group.  The anchored matchers reproduce the alternation order
and the greedy (maximal-run) semantics of the original patterns; in every
pattern the character class of the group is disjoint from what precedes and
follows it, so greedy matching is deterministic and no backtracking within an
alternative can change the result. -/

/-- Leftmost search: try the anchored matcher at each position, left to
right, as Python re.search does. -/
def reSearch (m : List Char → Option (List Char)) : List Char → Option (List Char)
  | [] => m []
  | c :: rest =>
    match m (c :: rest) with
    | some g => some g
    | none => reSearch m rest

/-- Anchored: a literal marker, then one-or-more whitespace, then a
one-or-more run of `p`-characters (the captured group). -/
def matchMarkerSpaceRun (marker : List Char) (p : Char → Bool) (s : List Char) :
    Option (List Char) :=
  if marker.isPrefixOf s then
    let rest := (s.drop marker.length).span isSpaceChar
    if rest.1.isEmpty then none
    else
      let run := rest.2.takeWhile p
      if run.isEmpty then none else some run
  else none

/-- Anchored: a literal marker immediately followed by a one-or-more run of
`p`-characters (the captured group). -/
def matchMarkerRun (marker : List Char) (p : Char → Bool) (s : List Char) :
    Option (List Char) :=
  if marker.isPrefixOf s then
    let run := (s.drop marker.length).takeWhile p
    if run.isEmpty then none else some run
  else none

/-- Anchored model of the action-id pattern of src/main.py line 91,
alternation tried in source order.  NOTE: in the source pattern the
one-or-more-whitespace token applies after BOTH alternatives of the
alternation, so the second phrasing only matches when whitespace separates
the equals sign from the identifier. -/
def matchActionAt (s : List Char) : Option (List Char) :=
  match matchMarkerSpaceRun ("action".toList) isIdChar s with
  | some g => some g
  | none => matchMarkerSpaceRun ("Action=".toList) isIdChar s

/-- Anchored model of the subject pattern of src/main.py line 96:
the unix-user marker or the user-equals marker, then a word-character run. -/
def matchUserAt (s : List Char) : Option (List Char) :=
  match matchMarkerRun ("unix-user:".toList) isWordChar s with
  | some g => some g
  | none => matchMarkerRun ("user=".toList) isWordChar s

/-- Anchored model of the service-name pattern of src/main.py line 106:
the literal name-equals-quote, a nonempty run of non-quote characters
(the group), then the closing quote. -/
def matchSvcAt (s : List Char) : Option (List Char) :=
  if ("name=".toList ++ [squote]).isPrefixOf s then
    let rest := (s.drop 6).span (fun c => !(c == squote))
    if rest.1.isEmpty then none
    else
      match rest.2 with
      | c :: _ => if c == squote then some rest.1 else none
      | [] => none
  else none

/-- Anchored model of the uid pattern of src/main.py line 110:
the literal uid-equals then a digit run. -/
def matchUidAt (s : List Char) : Option (List Char) :=
  matchMarkerRun ("uid=".toList) Char.isDigit s

/-! ## The audit event and the per-line parser -/

/-- Outcome classification tags, exactly the strings assigned to `result`
in src/main.py lines 87, 100, 102, 115. -/
inductive Outcome where
  | Allowed
  | Denied
  | Activating
  | Info
deriving DecidableEq, Repr

/-- Which extraction grammar produced the event (spec section 3): the polkit
branch of the loop or the dbus branch. -/
inductive Family where
  | PolicyDecision
  | ServiceActivation
deriving DecidableEq, Repr

/-- The structured audit event handed to the consumer callback
(src/main.py line 117), together with the family annotation of spec
section 3. -/
structure AuditEvent where
  timestamp : List Char
  family : Family
  subject : List Char
  actionOrServiceId : List Char
  outcome : Outcome
deriving DecidableEq, Repr

/-- The sentinel self-action identifier filtered at src/main.py line 94. -/
def selfAction : List Char := "org.freedesktop.policykit.exec".toList

/-- The Allowed-keyword test of src/main.py line 99. -/
def allowedKeyword (lineLower : List Char) : Bool :=
  hasSubstr ("successfully".toList) lineLower ||
  hasSubstr ("accepted".toList) lineLower ||
  hasSubstr ("is authorized".toList) lineLower

/-- The Denied-keyword test of src/main.py line 101. -/
def deniedKeyword (lineLower : List Char) : Bool :=
  hasSubstr ("denied".toList) lineLower || hasSubstr ("failed".toList) lineLower

/-- The polkit branch of the loop body (src/main.py lines 89-102):
extract the action id (discard when absent), discard the sentinel self
action, extract the subject with default unknown, classify the outcome by
keywords on the lowercased raw line. -/
def parsePolkit (lineLower fullLine : List Char) : Option AuditEvent :=
  match reSearch matchActionAt fullLine with
  | none => none
  | some actionId =>
    if actionId = selfAction then none
    else
      some ⟨timestampOf fullLine, Family.PolicyDecision,
        (match reSearch matchUserAt fullLine with
         | some u => u
         | none => "unknown".toList),
        actionId,
        (if allowedKeyword lineLower then Outcome.Allowed
         else if deniedKeyword lineLower then Outcome.Denied
         else Outcome.Info)⟩

/-- The dbus branch of the loop body (src/main.py lines 104-115): extract
the service name (discard when absent); extract the numeric uid and resolve
it through the identity database (`resolve` models pwd.getpwuid, returning
none when the lookup raises), falling back to the digit string; outcome is
fixed to Activating.  When no uid pattern is present the subject keeps its
initial value unknown (line 86). -/
def parseDbus (resolve : Nat → Option (List Char)) (fullLine : List Char) :
    Option AuditEvent :=
  match reSearch matchSvcAt fullLine with
  | none => none
  | some svc =>
    some ⟨timestampOf fullLine, Family.ServiceActivation,
      (match reSearch matchUidAt fullLine with
       | some ds => (resolve (digitsToNat ds)).getD ds
       | none => "unknown".toList),
      svc, Outcome.Activating⟩

/-- The pure per-line body of AuditMonitor._monitor_loop
(src/main.py lines 75-117): route on the lowercased line (polkit keyword
first, then the dbus activation marker pair, mirroring the if/elif), strip
the line for field extraction, and run the selected grammar. -/
def parseLine (resolve : Nat → Option (List Char)) (line : List Char) :
    Option AuditEvent :=
  if hasSubstr ("polkit".toList) (pyLower line) then
    parsePolkit (pyLower line) (pyStrip line)
  else if hasSubstr ("dbus-daemon".toList) (pyLower line) &&
          hasSubstr ("activating service".toList) (pyLower line) then
    parseDbus resolve (pyStrip line)
  else none

/-- An identity resolver that never finds a name (every lookup raises). -/
def noResolve : Nat → Option (List Char) := fun _ => none

/-! ## The per-line exception boundary and the delivery schedule

The loop body of src/main.py lines 81-119 wraps the whole extraction of one
line in a try/except: a body that raises yields no event for that line and
the loop moves on.  `monitorEvents` models one run of the loop over a finite
list of input lines, with the body abstracted as a fallible `step` (in the
pure embedding the actual body is `Except.ok (parseLine resolve l)`); the
result list is the sequence of events submitted to the scheduler
(GLib.idle_add at line 117), in submission order. -/

/-- The except-clause at src/main.py line 118: a raising body yields no
event for its line. -/
def catchLine {E : Type} (r : Except E (Option AuditEvent)) : Option AuditEvent :=
  match r with
  | Except.ok v => v
  | Except.error _ => none

/-- One run of the monitor loop over a list of raw lines, with the per-line
body `step`; produces the events submitted to the scheduler, in order. -/
def monitorEvents {E : Type} (step : List Char → Except E (Option AuditEvent))
    (lines : List (List Char)) : List AuditEvent :=
  lines.filterMap (fun l => catchLine (step l))

/-- The sequence of events submitted to the consumer scheduler by one run of
the loop whose body never raises: one idle_add submission per parsed event,
in line order (src/main.py line 117). -/
def schedule (resolve : Nat → Option (List Char)) (lines : List (List Char)) :
    List AuditEvent :=
  lines.filterMap (parseLine resolve)

/-- The non-raising loop body submits exactly the schedule. -/
theorem monitorEvents_parseLine (resolve : Nat → Option (List Char))
    (lines : List (List Char)) :
    monitorEvents (fun l => (Except.ok (parseLine resolve l) : Except Unit (Option AuditEvent)))
      lines = schedule resolve lines := by
  simp [monitorEvents, schedule, catchLine]

/-! ## The lifecycle state machine (src/main.py lines 46-62)

`running` is the cooperative flag, `hasProcess` whether the subprocess
handle is held, `workers` the number of worker threads spawned by start and
not yet naturally exited.  `start` (lines 52-56) is a guarded transition:
when already running it returns at once; otherwise it sets the flag and
spawns one worker, which immediately spawns the log subprocess (line 69).
`stop` (lines 58-62) clears the flag and, when a process handle is held,
terminates and releases it; the worker then exits eventually (it is not
joined), which the model does not track. -/

structure MonitorState where
  running : Bool
  hasProcess : Bool
  workers : Nat
deriving DecidableEq, Repr

namespace AuditMonitor

/-- The initial state built by AuditMonitor.__init__ (src/main.py 47-50). -/
def initState : MonitorState := ⟨false, false, 0⟩

/-- AuditMonitor.start (src/main.py 52-56). -/
def start (s : MonitorState) : MonitorState :=
  if s.running then s else ⟨true, true, s.workers + 1⟩

/-- AuditMonitor.stop (src/main.py 58-62): never raises (the terminate call
is guarded by the handle test), clears the flag and the handle. -/
def stop (s : MonitorState) : MonitorState := ⟨false, false, s.workers⟩

end AuditMonitor

/-! ## Concrete lines and events used as witnesses -/

/-- The Allowed example of spec section 8. -/
def allowLine : List Char :=
  "Jan 01 10:00:00 host polkitd[1]: action org.example.Foo requested by unix-user:alice is authorized".toList

def allowEvent : AuditEvent :=
  ⟨"Jan 01 10:00:00".toList, Family.PolicyDecision, "alice".toList,
    "org.example.Foo".toList, Outcome.Allowed⟩

/-- The Denied, no-user-pattern example of spec section 8. -/
def barLine : List Char :=
  "Jan 01 10:00:01 host polkitd[1]: action org.example.Bar denied".toList

def barEvent : AuditEvent :=
  ⟨"Jan 01 10:00:01".toList, Family.PolicyDecision, "unknown".toList,
    "org.example.Bar".toList, Outcome.Denied⟩

/-- A polkit line using the equals phrasing with the identifier immediately
after the equals sign, as written in spec sections 4.2 and 8. -/
def actionEqLine : List Char :=
  "Jan 01 10:00:00 host polkitd[9]: Action=org.example.Foo is authorized".toList

/-- The dbus activation example of spec section 8. -/
def dbusLine : List Char :=
  "Jan 01 10:00:02 host dbus-daemon[1]: Activating service name=".toList ++ [squote] ++
    "org.example.Baz".toList ++ [squote] ++ " using servicehelper uid=1000".toList

def svcBaz : List Char := "org.example.Baz".toList

/-- A resolver on which uid 1000 resolves to the name bob. -/
def bobResolve : Nat → Option (List Char) :=
  fun n => if n = 1000 then some ("bob".toList) else none

/-- A polkit line whose extracted action id is the sentinel self action. -/
def sentinelLine : List Char :=
  "Jan 01 10:00:05 host polkitd[1]: action org.freedesktop.policykit.exec is authorized".toList

/-- A line with neither the polkit keyword nor the dbus activation pair. -/
def sshLine : List Char :=
  "Jan 01 10:00:04 host sshd[7]: Accepted password for alice from 10.0.0.5".toList

/-- A polkit line containing both an Allowed keyword and a Denied keyword. -/
def mixLine : List Char :=
  "Jan 01 10:00:03 host polkitd[1]: action org.example.Qux failed but accepted".toList

def mixEvent : AuditEvent :=
  ⟨"Jan 01 10:00:03".toList, Family.PolicyDecision, "unknown".toList,
    "org.example.Qux".toList, Outcome.Allowed⟩

/-- A loop body that raises on one particular line and otherwise runs the
pure parser. -/
def stepModel : List Char → Except Unit (Option AuditEvent) :=
  fun l => if l = "garbage".toList then Except.error () else Except.ok (parseLine noResolve l)

/-! ## Inversion lemmas -/

/-- Inversion of the parser on events of the PolicyDecision family: such an
event can only come from the polkit branch, and its fields are exactly the
extractions of that branch. -/
theorem parseLine_policy_inv (resolve : Nat → Option (List Char)) (line : List Char)
    (e : AuditEvent) (h : parseLine resolve line = some e)
    (hf : e.family = Family.PolicyDecision) :
    ∃ actionId,
      reSearch matchActionAt (pyStrip line) = some actionId ∧
      actionId ≠ selfAction ∧
      e = ⟨timestampOf (pyStrip line), Family.PolicyDecision,
        (match reSearch matchUserAt (pyStrip line) with
         | some u => u
         | none => "unknown".toList),
        actionId,
        (if allowedKeyword (pyLower line) then Outcome.Allowed
         else if deniedKeyword (pyLower line) then Outcome.Denied
         else Outcome.Info)⟩ := by
  unfold parseLine at h
  by_cases hp : hasSubstr ("polkit".toList) (pyLower line) = true
  · rw [if_pos hp] at h
    unfold parsePolkit at h
    cases hact : reSearch matchActionAt (pyStrip line) with
    | none => rw [hact] at h; exact Option.noConfusion h
    | some actionId =>
      rw [hact] at h
      dsimp only at h
      by_cases hne : actionId = selfAction
      · rw [if_pos hne] at h; exact Option.noConfusion h
      · rw [if_neg hne] at h
        injection h with h1
        exact ⟨actionId, rfl, hne, h1.symm⟩
  · rw [if_neg hp] at h
    by_cases hd : (hasSubstr ("dbus-daemon".toList) (pyLower line) &&
        hasSubstr ("activating service".toList) (pyLower line)) = true
    · rw [if_pos hd] at h
      unfold parseDbus at h
      cases hsvc : reSearch matchSvcAt (pyStrip line) with
      | none => rw [hsvc] at h; exact Option.noConfusion h
      | some svc =>
        rw [hsvc] at h
        dsimp only at h
        injection h with h1
        rw [← h1] at hf
        exact absurd hf (by simp)
    · rw [if_neg hd] at h
      exact Option.noConfusion h

/-! ## Claims -/

/-- Claim C1 (code bug in src/main.py line 91): the pattern requires
whitespace between the marker and the identifier in BOTH alternatives of the
alternation, so a polkit line carrying the equals phrasing with the
identifier immediately after the equals sign — the phrasing the pattern's
second alternative was written for — matches nothing and yields no event,
contrary to the stated extraction rule. -/
theorem actionEq_immediate_id_yields_no_event :
    parseLine noResolve actionEqLine = none ∧
    reSearch matchActionAt (pyStrip actionEqLine) = none := by
  exact ⟨by decide, by decide⟩

/-- Claim C2: every emitted event of the PolicyDecision family has the
outcome given by keyword presence in the lowercased raw line: an Allowed
keyword gives Allowed, otherwise a Denied keyword gives Denied, otherwise
Info. -/
theorem policyDecision_outcome_classification (resolve : Nat → Option (List Char))
    (line : List Char) (e : AuditEvent) (h : parseLine resolve line = some e)
    (hf : e.family = Family.PolicyDecision) :
    e.outcome = (if allowedKeyword (pyLower line) then Outcome.Allowed
      else if deniedKeyword (pyLower line) then Outcome.Denied
      else Outcome.Info) := by
  obtain ⟨aid, -, -, he⟩ := parseLine_policy_inv resolve line e h hf
  rw [he]

theorem policyDecision_outcome_classification_witness :
    parseLine noResolve allowLine = some allowEvent ∧
    allowEvent.outcome = (if allowedKeyword (pyLower allowLine) then Outcome.Allowed
      else if deniedKeyword (pyLower allowLine) then Outcome.Denied
      else Outcome.Info) :=
  ⟨by decide,
    policyDecision_outcome_classification noResolve allowLine allowEvent
      (by decide) (by decide)⟩

/-- Claim C3: no emitted PolicyDecision event carries the sentinel self
action id, and a polkit-routed line whose extracted action id is the
sentinel yields no event at all. -/
theorem policyDecision_never_selfAction (resolve : Nat → Option (List Char))
    (line : List Char) :
    (∀ e, parseLine resolve line = some e → e.family = Family.PolicyDecision →
      e.actionOrServiceId ≠ selfAction) ∧
    (hasSubstr ("polkit".toList) (pyLower line) = true →
      reSearch matchActionAt (pyStrip line) = some selfAction →
      parseLine resolve line = none) := by
  constructor
  · intro e h hf
    obtain ⟨aid, -, hne, he⟩ := parseLine_policy_inv resolve line e h hf
    rw [he]
    exact hne
  · intro hp hact
    unfold parseLine
    rw [if_pos hp]
    unfold parsePolkit
    rw [hact]
    simp

theorem policyDecision_never_selfAction_witness :
    parseLine noResolve sentinelLine = none :=
  (policyDecision_never_selfAction noResolve sentinelLine).2 (by decide) (by decide)

/-- Claim C4: a line whose lowercase form contains neither the polkit
keyword nor both dbus activation markers yields no event. -/
theorem unrouted_line_no_event (resolve : Nat → Option (List Char)) (line : List Char)
    (hp : hasSubstr ("polkit".toList) (pyLower line) = false)
    (hd : (hasSubstr ("dbus-daemon".toList) (pyLower line) &&
           hasSubstr ("activating service".toList) (pyLower line)) = false) :
    parseLine resolve line = none := by
  unfold parseLine
  rw [if_neg (by simp only [hp]; exact Bool.false_ne_true),
    if_neg (by simp only [hd]; exact Bool.false_ne_true)]

theorem unrouted_line_no_event_witness : parseLine noResolve sshLine = none :=
  unrouted_line_no_event noResolve sshLine (by decide) (by decide)

/-- Claim C5: on a line routed to the dbus activation grammar, absence of
the quoted service-name pattern yields no event; otherwise the event carries
the service name, the Activating outcome, and as subject the resolved name
of the extracted numeric uid, falling back to the digit string when
resolution fails. -/
theorem serviceActivation_fields (resolve : Nat → Option (List Char)) (line : List Char)
    (hp : hasSubstr ("polkit".toList) (pyLower line) = false)
    (hd : (hasSubstr ("dbus-daemon".toList) (pyLower line) &&
           hasSubstr ("activating service".toList) (pyLower line)) = true) :
    (reSearch matchSvcAt (pyStrip line) = none → parseLine resolve line = none) ∧
    (∀ svc ds, reSearch matchSvcAt (pyStrip line) = some svc →
      reSearch matchUidAt (pyStrip line) = some ds →
      parseLine resolve line = some ⟨timestampOf (pyStrip line),
        Family.ServiceActivation, (resolve (digitsToNat ds)).getD ds, svc,
        Outcome.Activating⟩) := by
  have hroute : parseLine resolve line = parseDbus resolve (pyStrip line) := by
    unfold parseLine
    rw [if_neg (by simp only [hp]; exact Bool.false_ne_true), if_pos hd]
  constructor
  · intro hsvc
    rw [hroute]
    unfold parseDbus
    rw [hsvc]
  · intro svc ds hsvc hud
    rw [hroute]
    unfold parseDbus
    rw [hsvc]
    dsimp only
    rw [hud]

theorem serviceActivation_fields_witness :
    parseLine bobResolve dbusLine = some ⟨timestampOf (pyStrip dbusLine),
      Family.ServiceActivation, (bobResolve (digitsToNat ("1000".toList))).getD ("1000".toList),
      svcBaz, Outcome.Activating⟩ ∧
    (bobResolve (digitsToNat ("1000".toList))).getD ("1000".toList) = "bob".toList :=
  ⟨(serviceActivation_fields bobResolve dbusLine (by decide) (by decide)).2
      svcBaz ("1000".toList) (by decide) (by decide),
    by decide⟩

/-- Claim C6: every emitted PolicyDecision event carries as subject the
word captured after the unix-user or user-equals marker, defaulting to the
literal unknown when neither pattern occurs in the line. -/
theorem policyDecision_subject_extraction (resolve : Nat → Option (List Char))
    (line : List Char) (e : AuditEvent) (h : parseLine resolve line = some e)
    (hf : e.family = Family.PolicyDecision) :
    e.subject = (match reSearch matchUserAt (pyStrip line) with
      | some u => u
      | none => "unknown".toList) := by
  obtain ⟨aid, -, -, he⟩ := parseLine_policy_inv resolve line e h hf
  rw [he]

theorem policyDecision_subject_extraction_witness :
    parseLine noResolve barLine = some barEvent ∧
    barEvent.subject = (match reSearch matchUserAt (pyStrip barLine) with
      | some u => u
      | none => "unknown".toList) :=
  ⟨by decide,
    policyDecision_subject_extraction noResolve barLine barEvent (by decide) (by decide)⟩

/-- Claim C7: the try/except at the line boundary contains any exception of
the per-line body: a raising line contributes no event, and the events of
all other lines are exactly those of the run without the raising line. -/
theorem lineError_contained {E : Type} (step : List Char → Except E (Option AuditEvent))
    (pre post : List (List Char)) (bad : List Char) (err : E)
    (h : step bad = Except.error err) :
    monitorEvents step (pre ++ bad :: post) =
      monitorEvents step pre ++ monitorEvents step post := by
  simp [monitorEvents, List.filterMap_append, List.filterMap_cons, h, catchLine]

theorem lineError_contained_witness :
    monitorEvents stepModel ([allowLine] ++ ("garbage".toList) :: [barLine]) =
      monitorEvents stepModel [allowLine] ++ monitorEvents stepModel [barLine] :=
  lineError_contained stepModel [allowLine] [barLine] ("garbage".toList) () rfl

/-- Claim C8: the lifecycle state machine is idempotent at both
transitions: start while running is a no-op, a double start from the initial
state leaves exactly one worker and the running flag set, stop is always a
no-op on a second call, and stop from the initial (stopped) state — a total
function, so it cannot raise — leaves the state stopped. -/
theorem lifecycle_idempotent :
    (∀ s : MonitorState, s.running = true → AuditMonitor.start s = s) ∧
    (AuditMonitor.start (AuditMonitor.start AuditMonitor.initState)).workers = 1 ∧
    (AuditMonitor.start (AuditMonitor.start AuditMonitor.initState)).running = true ∧
    (∀ s : MonitorState, AuditMonitor.stop (AuditMonitor.stop s) = AuditMonitor.stop s) ∧
    (AuditMonitor.stop AuditMonitor.initState).running = false ∧
    (AuditMonitor.stop (AuditMonitor.stop AuditMonitor.initState)).running = false := by
  refine ⟨?_, by decide, by decide, ?_, by decide, by decide⟩
  · intro s hs
    unfold AuditMonitor.start
    rw [if_pos hs]
  · intro s
    rfl

theorem lifecycle_idempotent_witness :
    AuditMonitor.start ⟨true, true, 1⟩ = (⟨true, true, 1⟩ : MonitorState) :=
  lifecycle_idempotent.1 ⟨true, true, 1⟩ (by decide)

/-- Claim C9: the schedule submitted to the consumer preserves source-line
order: when an earlier line and a later line both parse to events, the
earlier line's event is scheduled before the later line's event. -/
theorem schedule_preserves_order (resolve : Nat → Option (List Char))
    (p q r : List (List Char)) (a b : List Char) (ea eb : AuditEvent)
    (ha : parseLine resolve a = some ea) (hb : parseLine resolve b = some eb) :
    schedule resolve (p ++ a :: q ++ b :: r) =
      schedule resolve p ++ ea :: schedule resolve q ++ eb :: schedule resolve r := by
  simp [schedule, List.filterMap_append, List.filterMap_cons, ha, hb]

theorem schedule_preserves_order_witness :
    schedule noResolve ([] ++ allowLine :: [sshLine] ++ barLine :: []) =
      schedule noResolve [] ++ allowEvent :: schedule noResolve [sshLine] ++
        barEvent :: schedule noResolve [] :=
  schedule_preserves_order noResolve [] [sshLine] [] allowLine barLine
    allowEvent barEvent (by decide) (by decide)

/-- Claim C10: Allowed takes precedence over Denied: an emitted
PolicyDecision event whose line contains both an Allowed keyword and a
Denied keyword has outcome Allowed. -/
theorem allowed_precedes_denied (resolve : Nat → Option (List Char))
    (line : List Char) (e : AuditEvent) (h : parseLine resolve line = some e)
    (hf : e.family = Family.PolicyDecision)
    (ha : allowedKeyword (pyLower line) = true)
    (_hd : deniedKeyword (pyLower line) = true) :
    e.outcome = Outcome.Allowed := by
  obtain ⟨aid, -, -, he⟩ := parseLine_policy_inv resolve line e h hf
  rw [he]
  simp [ha]

theorem allowed_precedes_denied_witness :
    parseLine noResolve mixLine = some mixEvent ∧ mixEvent.outcome = Outcome.Allowed :=
  ⟨by decide,
    allowed_precedes_denied noResolve mixLine mixEvent (by decide) (by decide)
      (by decide) (by decide)⟩

end PolControl
